/-
Verification development for the gaze-estimation and calibration engine of
the gazehome edge module.  The Python source under `edge-module/` is shallowly
embedded: numpy / float arithmetic is modelled over `ℚ`, Python `int()`
truncation is `pyInt`, fallible calls return `Except`/`Option`, and the
stateful per-frame loops become explicit state-passing functions.
-/
import Mathlib

/-- Python `int()` applied to a real-valued (here rational) argument:
truncation toward zero. -/
def pyInt (q : ℚ) : ℤ := if 0 ≤ q then ⌊q⌋ else ⌈q⌉

/-- Arithmetic mean of a list of rationals (`np.mean`). -/
def listMean (xs : List ℚ) : ℚ := xs.sum / xs.length

namespace CalibApi

/-!  Embedding of `backend/api/calibration.py` (the web calibration session):
the 9-point grid generation and the `/complete` endpoint. -/

/-- A planned calibration point, as in the `CalibrationPoint` pydantic model. -/
structure CalibrationPoint where
  x : ℤ
  y : ℤ
  index : ℕ
  total : ℕ
  deriving DecidableEq, Repr

/-- The fixed 3x3 grid order used by `CalibrationSession._generate_points`:
center first, then top row, middle sides, bottom row. -/
def ninePointOrder : List (ℕ × ℕ) :=
  [(1, 1),
   (0, 0), (0, 1), (0, 2),
   (1, 0), (1, 2),
   (2, 0), (2, 1), (2, 2)]

/-- Embedding of `CalibrationSession._compute_grid_points`: maps grid
`(row, col)` indices to absolute pixel positions, with a `margin_ratio`
horizontal and top margin and a fixed 15% bottom margin. -/
def computeGridPoints (screenWidth screenHeight : ℤ) (marginRatio : ℚ)
    (order : List (ℕ × ℕ)) : List (ℤ × ℤ) :=
  if order = [] then []
  else
    let maxR : ℕ := (order.map Prod.fst).foldr max 0
    let maxC : ℕ := (order.map Prod.snd).foldr max 0
    let mx : ℤ := pyInt ((screenWidth : ℚ) * marginRatio)
    let myTop : ℤ := pyInt ((screenHeight : ℚ) * marginRatio)
    let myBottom : ℤ := pyInt ((screenHeight : ℚ) * (15 / 100))
    let gw : ℤ := screenWidth - 2 * mx
    let gh : ℤ := screenHeight - myTop - myBottom
    let stepX : ℚ := if maxC = 0 then 0 else (gw : ℚ) / (maxC : ℚ)
    let stepY : ℚ := if maxR = 0 then 0 else (gh : ℚ) / (maxR : ℚ)
    order.map fun rc =>
      (mx + pyInt ((rc.2 : ℚ) * stepX), myTop + pyInt ((rc.1 : ℚ) * stepY))

/-- Embedding of `CalibrationSession._generate_points`: applies
`computeGridPoints` to the fixed nine-point order and wraps the results
with their index and total count. -/
def generatePoints (screenWidth screenHeight : ℤ) (marginRatio : ℚ) :
    List CalibrationPoint :=
  let pts := computeGridPoints screenWidth screenHeight marginRatio ninePointOrder
  (pts.enum).map fun p =>
    { x := p.2.1, y := p.2.2, index := p.1, total := pts.length }

end CalibApi

namespace GazeEst

/-!  Embedding of the blink-detection part of `model/gaze.py`
(`GazeEstimator.extract_features`, lines 129-164, and the constructor
defaults, lines 23-53). -/

/-- Blink-detection configuration of `GazeEstimator.__init__`. -/
structure BlinkConfig where
  earHistoryLen : ℕ
  blinkRatio : ℚ
  minHistory : ℕ
  deriving DecidableEq, Repr

/-- The constructor defaults: `ear_history_len=50`, `blink_threshold_ratio=0.8`,
`min_history=15`. -/
def defaultBlinkConfig : BlinkConfig :=
  { earHistoryLen := 50, blinkRatio := 4 / 5, minHistory := 15 }

/-- Appending to a `collections.deque` with `maxlen`: the new element goes on
the right and the oldest elements are discarded from the left when the bound
is exceeded. -/
def dequeAppend (maxlen : ℕ) (xs : List ℚ) (x : ℚ) : List ℚ :=
  let ys := xs ++ [x]
  if maxlen < ys.length then ys.drop (ys.length - maxlen) else ys

/-- Embedding of the blink-detection tail of `extract_features`: given the
two per-eye EAR values, average them, push the average onto the rolling EAR
history, pick the adaptive threshold (ratio times the history mean) once the
history holds at least `min_history` entries and the fixed fallback `0.2`
before that, and flag a blink when the averaged EAR is below the threshold.
Returns the updated history and the blink flag. -/
def blinkUpdate (cfg : BlinkConfig) (hist : List ℚ) (leftEAR rightEAR : ℚ) :
    List ℚ × Bool :=
  let EAR := (leftEAR + rightEAR) / 2
  let hist' := dequeAppend cfg.earHistoryLen hist EAR
  let thr := if cfg.minHistory ≤ hist'.length
    then listMean hist' * cfg.blinkRatio
    else 2 / 10
  (hist', decide (EAR < thr))

/-- Restatement of the spec's threshold rule, written from the spec's words:
`blink_threshold_ratio` (default 0.8) times the running mean of the rolling
EAR history once the history has reached `min_history` (default 15) entries,
and the fixed fallback value 0.2 before that. -/
def blinkThresholdSpec (hist' : List ℚ) : ℚ :=
  if 15 ≤ hist'.length then (8 / 10) * listMean hist' else 2 / 10

end GazeEst

namespace Tracker

/-!  Embedding of `backend/core/gaze_tracker.py` (`WebGazeTracker`): the
per-frame processing `_process_frame` (blink-duration state machine and gaze
update) and `get_current_state`.  Feature vectors are abstracted to `List ℚ`;
the regression model's `predict` and the smoother's `step` are parameters,
because the claims hold for every choice of them. -/

/-- Mutable fields of `WebGazeTracker` touched by `_process_frame`
(`__init__`, lines 30-44). -/
structure TrackerState where
  currentGaze : Option (ℤ × ℤ)
  rawGaze : Option (ℤ × ℤ)
  currentBlink : Bool
  calibrated : Bool
  blinkStartTime : Option ℚ
  blinkDuration : ℚ
  prolongedBlinkTriggered : Bool
  deriving DecidableEq, Repr

/-- The fresh state built by `WebGazeTracker.__init__`. -/
def initState (calibrated : Bool) : TrackerState :=
  { currentGaze := none, rawGaze := none, currentBlink := false,
    calibrated := calibrated, blinkStartTime := none, blinkDuration := 0,
    prolongedBlinkTriggered := false }

/-- One successfully read camera frame, as seen by `_process_frame`: the
wall-clock time of the frame, the extracted feature vector (none when no face
was detected) and the blink flag from `extract_features`. -/
structure Frame where
  now : ℚ
  features : Option (List ℚ)
  blink : Bool
  deriving DecidableEq, Repr

/-- `PROLONGED_BLINK_DURATION = 1.0` (seconds). -/
def PROLONGED_BLINK_DURATION : ℚ := 1

/-- Embedding of the body of `WebGazeTracker._process_frame` after a
successful frame read (lines 117-156): blink bookkeeping, then the gaze
update.  `predict` stands for `gaze_estimator.predict` composed with the
`int()` casts, and `smooth` for `self.smoother.step` with its own state
threaded through. -/
def processFrame {σ : Type} (predict : List ℚ → ℤ × ℤ)
    (smooth : σ → ℤ × ℤ → σ × (ℤ × ℤ)) (screen : ℤ × ℤ)
    (st : TrackerState × σ) (fr : Frame) : TrackerState × σ :=
  let s := st.1
  let sm := st.2
  -- blink duration tracking
  let s := if fr.blink then
      let start := match s.blinkStartTime with
        | none => fr.now
        | some t => t
      let trig0 := match s.blinkStartTime with
        | none => false
        | some _ => s.prolongedBlinkTriggered
      let dur := fr.now - start
      let trig := if PROLONGED_BLINK_DURATION ≤ dur ∧ trig0 = false
        then true else trig0
      { s with blinkStartTime := some start, blinkDuration := dur,
               prolongedBlinkTriggered := trig }
    else
      let dur := match s.blinkStartTime with
        | some t => fr.now - t
        | none => s.blinkDuration
      { s with blinkStartTime := none, blinkDuration := dur,
               prolongedBlinkTriggered := false }
  let s := { s with currentBlink := fr.blink }
  -- gaze update
  match fr.features, fr.blink, s.calibrated with
  | some f, false, true =>
      let xy := predict f
      let s := { s with rawGaze := some xy }
      let (sm', p) := smooth sm xy
      ({ s with currentGaze := some p }, sm')
  | _, _, _ =>
      if s.currentGaze = none then
        let c := (Int.ediv screen.1 2, Int.ediv screen.2 2)
        ({ s with currentGaze := some c, rawGaze := some c }, sm)
      else
        (s, sm)

/-- Folding `_process_frame` over a sequence of successfully read frames. -/
def runFrames {σ : Type} (predict : List ℚ → ℤ × ℤ)
    (smooth : σ → ℤ × ℤ → σ × (ℤ × ℤ)) (screen : ℤ × ℤ)
    (st : TrackerState × σ) (frames : List Frame) : TrackerState × σ :=
  frames.foldl (processFrame predict smooth screen) st

/-- Embedding of `WebGazeTracker.get_current_state` (the fields the claims
are about). -/
structure CurrentState where
  gaze : Option (ℤ × ℤ)
  rawGaze : Option (ℤ × ℤ)
  blink : Bool
  blinkDuration : ℚ
  prolongedBlink : Bool
  calibrated : Bool
  deriving DecidableEq, Repr

/-- `get_current_state` reads the mutable slots verbatim. -/
def getCurrentState (s : TrackerState) : CurrentState :=
  { gaze := s.currentGaze, rawGaze := s.rawGaze, blink := s.currentBlink,
    blinkDuration := s.blinkDuration,
    prolongedBlink := s.prolongedBlinkTriggered, calibrated := s.calibrated }

/-- A frame on which the calibrated-prediction branch of `_process_frame`
fires: a face was found, no blink, and the model is calibrated. -/
def predictingFrame (calibrated : Bool) (fr : Frame) : Prop :=
  fr.features.isSome ∧ fr.blink = false ∧ calibrated = true

instance (c : Bool) (fr : Frame) : Decidable (predictingFrame c fr) := by
  unfold predictingFrame
  infer_instance

end Tracker

namespace CalibApi

/-!  Embedding of the `/complete` endpoint (`complete_calibration`,
`backend/api/calibration.py` lines 354-445).  The regression model behind
`gaze_tracker.gaze_estimator` is represented by the list of `train()`
invocations it has received, which is what the claims observe. -/

/-- Run status of a `CalibrationSession` (the `CalibrationStatus` enum). -/
inductive CalibrationStatus where
  | IDLE | WAITING_FOR_FACE | COUNTDOWN | PULSING | CAPTURING
  | TRAINING | COMPLETED | ERROR
  deriving DecidableEq, Repr

/-- The sample-collection state of a `CalibrationSession`. -/
structure Session where
  collectedFeatures : List (List ℚ)
  collectedTargets : List (ℤ × ℤ)
  status : CalibrationStatus
  deriving DecidableEq, Repr

/-- Embedding of the `/cancel/{session_id}` endpoint (`cancel_calibration`):
look the session up in the global registry, set its status to IDLE and delete
it.  The gaze tracker's model is never touched. -/
def cancel_calibration (sessions : List (String × Session)) (sid : String) :
    Except ℕ (List (String × Session)) :=
  if (sessions.map Prod.fst).contains sid then
    .ok ((sessions.map fun p =>
      if p.1 = sid then (p.1, { p.2 with status := .IDLE }) else p).filter
        fun p => p.1 ≠ sid)
  else
    .error 404

end CalibApi

namespace CalibScript

/-!  Embedding of the script-driven calibration loops of
`model/calibration/common.py` (`_pulse_and_capture`, lines 124-203) and
`model/calibration/nine_point.py` (`run_9_point_calibration`, lines 19-68).
The time-bounded `while` loops are modelled by the finite list of camera
frames read during each phase's time window; `cv2.waitKey(1) == 27` (ESC)
is the frame's `esc` flag.  The gaze estimator is observed through its
`train()` call history, as in `CalibApi.TrackerModel`. -/

/-- One iteration of a pulse/capture loop: whether `cap.read()` succeeded,
whether ESC was pressed at the `waitKey` of this iteration, and what
`extract_features` returned on the frame. -/
structure CamFrame where
  ok : Bool
  esc : Bool
  features : Option (List ℚ)
  blink : Bool
  deriving DecidableEq, Repr

/-- The gaze estimator state, observed through its `train()` history. -/
structure GEState where
  trainCalls : List (List (List ℚ) × List (ℤ × ℤ))
  deriving DecidableEq, Repr

/-- `GazeEstimator.train`, as observed by the claims: records the call. -/
def trainGE (ge : GEState) (X : List (List ℚ)) (y : List (ℤ × ℤ)) : GEState :=
  { ge with trainCalls := ge.trainCalls ++ [(X, y)] }

/-- The pulse sub-phase of `_pulse_and_capture` for one point: no samples are
collected; the loop is cancelled iff some successfully read iteration sees
ESC (on a failed read the `continue` skips the `waitKey` check). -/
def pulseCancelled (frames : List CamFrame) : Bool :=
  frames.any fun f => f.ok && f.esc

/-- The capture sub-phase of `_pulse_and_capture` for one point: iterate the
frames of the capture window in order; a failed read skips the iteration; ESC
aborts the whole run (returning `none`, before this frame's features are
looked at); otherwise a frame with a detected feature vector and no blink
appends one sample tied to the point's coordinates. -/
def captureSamples (pt : ℤ × ℤ) :
    List CamFrame → Option (List (List ℚ × (ℤ × ℤ)))
  | [] => some []
  | f :: rest =>
    if f.ok = false then captureSamples pt rest
    else if f.esc then none
    else match f.features, f.blink with
      | some ft, false => (captureSamples pt rest).map fun s => (ft, pt) :: s
      | _, _ => captureSamples pt rest

/-- Embedding of `_pulse_and_capture`: for each point run the pulse phase
(cancel aborts with `none`) then the capture phase (cancel aborts with
`none`, discarding everything); otherwise accumulate the samples of all
points in order.  The script pairs each point with the frames of its pulse
and capture windows. -/
def pulse_and_capture :
    List ((ℤ × ℤ) × (List CamFrame × List CamFrame)) →
    Option (List (List ℚ) × List (ℤ × ℤ))
  | [] => some ([], [])
  | (pt, (pulseFrames, capFrames)) :: rest =>
    if pulseCancelled pulseFrames then none
    else match captureSamples pt capFrames with
      | none => none
      | some samples =>
        match pulse_and_capture rest with
        | none => none
        | some (feats, targs) =>
          some (samples.map Prod.fst ++ feats, samples.map Prod.snd ++ targs)

/-- Embedding of `run_9_point_calibration`: if `wait_for_face_and_countdown`
returned `False` (user cancelled during the face wait), release the camera
and return — the estimator is untouched.  Otherwise run `_pulse_and_capture`
over the nine points; on cancellation (`None`) return with the estimator
untouched; otherwise train on the collected data when any was collected.
`waitResult` is the boolean returned by the face-wait loop, and `script`
pairs each planned point with its pulse/capture frame windows. -/
def run_9_point_calibration (waitResult : Bool)
    (script : List ((ℤ × ℤ) × (List CamFrame × List CamFrame)))
    (ge : GEState) : GEState :=
  if waitResult = false then ge
  else match pulse_and_capture script with
    | none => ge
    | some (feats, targs) =>
      if feats ≠ [] then trainGE ge feats targs else ge

end CalibScript

namespace Models

/-!  Embedding of `model/models/base.py` (`BaseModel`) together with the
sklearn `StandardScaler` semantics it relies on (fit stores per-feature mean
and scale = sqrt of the population variance with zeros replaced by 1;
transform before any fit raises `NotFittedError`).  Square roots are not
exact over `ℚ`, so the square-root function is a parameter `sqrtQ`; every
theorem below holds for all choices of it.  The concrete regression variant
behind `_native_train` / `_native_predict` is likewise a parameter. -/

/-- Fitted sklearn `StandardScaler` statistics: per-feature `mean_` and
`scale_`; `none` while the scaler has never been fit. -/
structure StandardScaler where
  fitted : Option (List ℚ × List ℚ)
  deriving DecidableEq, Repr

/-- Centering and scaling of each row by the fitted statistics
(`StandardScaler.transform` on a fitted scaler). -/
def transformRows (mean scale : List ℚ) (X : List (List ℚ)) :
    List (List ℚ) :=
  X.map fun row => (row.zip (mean.zip scale)).map fun xms =>
    (xms.1 - xms.2.1) / xms.2.2

/-- `StandardScaler.transform`: fails with `NotFittedError` when the scaler
was never fit. -/
def StandardScaler.transform (sc : StandardScaler) (X : List (List ℚ)) :
    Except String (List (List ℚ)) :=
  match sc.fitted with
  | none => .error "NotFittedError"
  | some ms => .ok (transformRows ms.1 ms.2 X)

/-- State of a `BaseModel`: the scaler, the optional per-feature scale vector
stored by the most recent `train()` (absent before any `train()`), and the
native estimator. -/
structure BaseModel (N : Type) where
  scaler : StandardScaler
  variable_scaling : Option (List ℚ)
  native : N

/-- `BaseModel.__init__`: a fresh unfitted scaler; `variable_scaling` is not
set (reads of it fall back to `None` via `getattr`). -/
def mkBaseModel {N : Type} (native : N) : BaseModel N :=
  { scaler := ⟨none⟩, variable_scaling := none, native := native }

/-- The optional per-feature multiplication `Xs *= variable_scaling`, applied
only when a scale vector is present. -/
def applyVS (vs : Option (List ℚ)) (rows : List (List ℚ)) : List (List ℚ) :=
  match vs with
  | some v => rows.map fun row => row.zipWith (fun x s => x * s) v
  | none => rows

/-- Embedding of `BaseModel.predict`: transform with the fitted scaler
(raising `NotFittedError` when `train()` never ran), apply the stored scale
vector if one was stored, and delegate to the native predict. -/
def BaseModel.predict {N : Type}
    (nativePredict : N → List (List ℚ) → List (ℚ × ℚ))
    (m : BaseModel N) (X : List (List ℚ)) : Except String (List (ℚ × ℚ)) :=
  match m.scaler.transform X with
  | .error e => .error e
  | .ok Xs0 => .ok (nativePredict m.native (applyVS m.variable_scaling Xs0))

/-!  The pickle artifact written by `BaseModel.save` and read back by
`BaseModel.load`: one opaque serialization of the whole object graph
(scaler statistics, scale vector, native estimator). -/

/-- A pickled Python object tree. -/
inductive PyObj where
  | pyNone
  | num (q : ℚ)
  | list (xs : List PyObj)

/-- Encoding of a list of rationals. -/
def encodeRatList (l : List ℚ) : PyObj := .list (l.map .num)

/-- Decoding of a list of number nodes. -/
def decodeNumList : List PyObj → Option (List ℚ)
  | [] => some []
  | .num q :: rest => (decodeNumList rest).map fun l => q :: l
  | _ => none

/-- Decoding of a list of rationals. -/
def decodeRatList : PyObj → Option (List ℚ)
  | .list xs => decodeNumList xs
  | _ => none

/-- Encoding of the scaler state. -/
def encodeScaler (sc : StandardScaler) : PyObj :=
  match sc.fitted with
  | none => .pyNone
  | some ms => .list [encodeRatList ms.1, encodeRatList ms.2]

/-- Decoding of the scaler state. -/
def decodeScaler : PyObj → Option StandardScaler
  | .pyNone => some ⟨none⟩
  | .list [m, s] => do
      let mean ← decodeRatList m
      let scale ← decodeRatList s
      some ⟨some (mean, scale)⟩
  | _ => none

/-- Encoding of the optional per-feature scale vector. -/
def encodeVS : Option (List ℚ) → PyObj
  | none => .pyNone
  | some v => encodeRatList v

/-- Decoding of the optional per-feature scale vector. -/
def decodeVS : PyObj → Option (Option (List ℚ))
  | .pyNone => some none
  | o => (decodeRatList o).map some

/-- `BaseModel.save`: pickle the whole object graph as one artifact. -/
def BaseModel.save {N : Type} (encN : N → PyObj) (m : BaseModel N) : PyObj :=
  .list [encodeScaler m.scaler, encodeVS m.variable_scaling, encN m.native]

/-- `BaseModel.load`: unpickle an artifact back into a model. -/
def BaseModel.load {N : Type} (decN : PyObj → Option N) :
    PyObj → Option (BaseModel N)
  | .list [sc, vs, nat] => do
      let scaler ← decodeScaler sc
      let variable_scaling ← decodeVS vs
      let native ← decN nat
      some { scaler := scaler, variable_scaling := variable_scaling,
             native := native }
  | _ => none

end Models

namespace Kalman

/-!  Embedding of `model/filters/__init__.py` (`make_kalman` with its default
arguments) and `model/filters/kalman.py` (`KalmanSmoother.step`), over the
semantics of `cv2.KalmanFilter`: `predict()` computes the a-priori state and
covariance from the transition model and copies them into the a-posteriori
slots (so that a skipped correction is harmless), returning the a-priori
state; `correct(z)` computes the gain and the a-posteriori state/covariance
from the measurement.  The float32 vectors and matrices are modelled over `ℚ`
as records with one field per entry, with the matrix products written out
entrywise. -/

/-- A 2-vector (one measurement). -/
structure Vec2 where
  z0 : ℚ
  z1 : ℚ
  deriving DecidableEq, Repr

/-- A 4-vector (one state: x, y, vx, vy). -/
structure Vec4 where
  x0 : ℚ
  x1 : ℚ
  x2 : ℚ
  x3 : ℚ
  deriving DecidableEq, Repr

/-- A 2x2 matrix. -/
structure Mat2 where
  s00 : ℚ
  s01 : ℚ
  s10 : ℚ
  s11 : ℚ
  deriving DecidableEq, Repr

/-- A 2x4 matrix. -/
structure Mat24 where
  b00 : ℚ
  b01 : ℚ
  b02 : ℚ
  b03 : ℚ
  b10 : ℚ
  b11 : ℚ
  b12 : ℚ
  b13 : ℚ
  deriving DecidableEq, Repr

/-- A 4x2 matrix. -/
structure Mat42 where
  c00 : ℚ
  c01 : ℚ
  c10 : ℚ
  c11 : ℚ
  c20 : ℚ
  c21 : ℚ
  c30 : ℚ
  c31 : ℚ
  deriving DecidableEq, Repr

/-- A 4x4 matrix. -/
structure Mat4 where
  m00 : ℚ
  m01 : ℚ
  m02 : ℚ
  m03 : ℚ
  m10 : ℚ
  m11 : ℚ
  m12 : ℚ
  m13 : ℚ
  m20 : ℚ
  m21 : ℚ
  m22 : ℚ
  m23 : ℚ
  m30 : ℚ
  m31 : ℚ
  m32 : ℚ
  m33 : ℚ
  deriving DecidableEq, Repr

/-- The all-zero state vector (`np.zeros((4, 1))`). -/
def Vec4.zero : Vec4 := ⟨0, 0, 0, 0⟩

/-- Entrywise vector sum. -/
def Vec4.add (u v : Vec4) : Vec4 :=
  ⟨u.x0 + v.x0, u.x1 + v.x1, u.x2 + v.x2, u.x3 + v.x3⟩

/-- Entrywise vector difference. -/
def Vec2.sub (u v : Vec2) : Vec2 := ⟨u.z0 - v.z0, u.z1 - v.z1⟩

/-- Product of a 4x4 matrix and a 4-vector. -/
def Mat4.mulVec (A : Mat4) (v : Vec4) : Vec4 :=
  ⟨A.m00 * v.x0 + A.m01 * v.x1 + A.m02 * v.x2 + A.m03 * v.x3,
   A.m10 * v.x0 + A.m11 * v.x1 + A.m12 * v.x2 + A.m13 * v.x3,
   A.m20 * v.x0 + A.m21 * v.x1 + A.m22 * v.x2 + A.m23 * v.x3,
   A.m30 * v.x0 + A.m31 * v.x1 + A.m32 * v.x2 + A.m33 * v.x3⟩

/-- Product of two 4x4 matrices. -/
def Mat4.mul (A B : Mat4) : Mat4 :=
  ⟨A.m00 * B.m00 + A.m01 * B.m10 + A.m02 * B.m20 + A.m03 * B.m30,
   A.m00 * B.m01 + A.m01 * B.m11 + A.m02 * B.m21 + A.m03 * B.m31,
   A.m00 * B.m02 + A.m01 * B.m12 + A.m02 * B.m22 + A.m03 * B.m32,
   A.m00 * B.m03 + A.m01 * B.m13 + A.m02 * B.m23 + A.m03 * B.m33,
   A.m10 * B.m00 + A.m11 * B.m10 + A.m12 * B.m20 + A.m13 * B.m30,
   A.m10 * B.m01 + A.m11 * B.m11 + A.m12 * B.m21 + A.m13 * B.m31,
   A.m10 * B.m02 + A.m11 * B.m12 + A.m12 * B.m22 + A.m13 * B.m32,
   A.m10 * B.m03 + A.m11 * B.m13 + A.m12 * B.m23 + A.m13 * B.m33,
   A.m20 * B.m00 + A.m21 * B.m10 + A.m22 * B.m20 + A.m23 * B.m30,
   A.m20 * B.m01 + A.m21 * B.m11 + A.m22 * B.m21 + A.m23 * B.m31,
   A.m20 * B.m02 + A.m21 * B.m12 + A.m22 * B.m22 + A.m23 * B.m32,
   A.m20 * B.m03 + A.m21 * B.m13 + A.m22 * B.m23 + A.m23 * B.m33,
   A.m30 * B.m00 + A.m31 * B.m10 + A.m32 * B.m20 + A.m33 * B.m30,
   A.m30 * B.m01 + A.m31 * B.m11 + A.m32 * B.m21 + A.m33 * B.m31,
   A.m30 * B.m02 + A.m31 * B.m12 + A.m32 * B.m22 + A.m33 * B.m32,
   A.m30 * B.m03 + A.m31 * B.m13 + A.m32 * B.m23 + A.m33 * B.m33⟩

/-- Transpose of a 4x4 matrix. -/
def Mat4.transpose (A : Mat4) : Mat4 :=
  ⟨A.m00, A.m10, A.m20, A.m30,
   A.m01, A.m11, A.m21, A.m31,
   A.m02, A.m12, A.m22, A.m32,
   A.m03, A.m13, A.m23, A.m33⟩

/-- Entrywise sum of 4x4 matrices. -/
def Mat4.add (A B : Mat4) : Mat4 :=
  ⟨A.m00 + B.m00, A.m01 + B.m01, A.m02 + B.m02, A.m03 + B.m03,
   A.m10 + B.m10, A.m11 + B.m11, A.m12 + B.m12, A.m13 + B.m13,
   A.m20 + B.m20, A.m21 + B.m21, A.m22 + B.m22, A.m23 + B.m23,
   A.m30 + B.m30, A.m31 + B.m31, A.m32 + B.m32, A.m33 + B.m33⟩

/-- Entrywise difference of 4x4 matrices. -/
def Mat4.sub (A B : Mat4) : Mat4 :=
  ⟨A.m00 - B.m00, A.m01 - B.m01, A.m02 - B.m02, A.m03 - B.m03,
   A.m10 - B.m10, A.m11 - B.m11, A.m12 - B.m12, A.m13 - B.m13,
   A.m20 - B.m20, A.m21 - B.m21, A.m22 - B.m22, A.m23 - B.m23,
   A.m30 - B.m30, A.m31 - B.m31, A.m32 - B.m32, A.m33 - B.m33⟩

/-- Product of a 2x4 and a 4x4 matrix. -/
def Mat24.mulM4 (A : Mat24) (B : Mat4) : Mat24 :=
  ⟨A.b00 * B.m00 + A.b01 * B.m10 + A.b02 * B.m20 + A.b03 * B.m30,
   A.b00 * B.m01 + A.b01 * B.m11 + A.b02 * B.m21 + A.b03 * B.m31,
   A.b00 * B.m02 + A.b01 * B.m12 + A.b02 * B.m22 + A.b03 * B.m32,
   A.b00 * B.m03 + A.b01 * B.m13 + A.b02 * B.m23 + A.b03 * B.m33,
   A.b10 * B.m00 + A.b11 * B.m10 + A.b12 * B.m20 + A.b13 * B.m30,
   A.b10 * B.m01 + A.b11 * B.m11 + A.b12 * B.m21 + A.b13 * B.m31,
   A.b10 * B.m02 + A.b11 * B.m12 + A.b12 * B.m22 + A.b13 * B.m32,
   A.b10 * B.m03 + A.b11 * B.m13 + A.b12 * B.m23 + A.b13 * B.m33⟩

/-- Product of a 2x4 and a 4x2 matrix. -/
def Mat24.mulM42 (A : Mat24) (B : Mat42) : Mat2 :=
  ⟨A.b00 * B.c00 + A.b01 * B.c10 + A.b02 * B.c20 + A.b03 * B.c30,
   A.b00 * B.c01 + A.b01 * B.c11 + A.b02 * B.c21 + A.b03 * B.c31,
   A.b10 * B.c00 + A.b11 * B.c10 + A.b12 * B.c20 + A.b13 * B.c30,
   A.b10 * B.c01 + A.b11 * B.c11 + A.b12 * B.c21 + A.b13 * B.c31⟩

/-- Product of a 2x4 matrix and a 4-vector. -/
def Mat24.mulVec (A : Mat24) (v : Vec4) : Vec2 :=
  ⟨A.b00 * v.x0 + A.b01 * v.x1 + A.b02 * v.x2 + A.b03 * v.x3,
   A.b10 * v.x0 + A.b11 * v.x1 + A.b12 * v.x2 + A.b13 * v.x3⟩

/-- Transpose of a 2x4 matrix. -/
def Mat24.transpose (A : Mat24) : Mat42 :=
  ⟨A.b00, A.b10, A.b01, A.b11, A.b02, A.b12, A.b03, A.b13⟩

/-- Product of a 4x4 and a 4x2 matrix. -/
def Mat4.mulM42 (A : Mat4) (B : Mat42) : Mat42 :=
  ⟨A.m00 * B.c00 + A.m01 * B.c10 + A.m02 * B.c20 + A.m03 * B.c30,
   A.m00 * B.c01 + A.m01 * B.c11 + A.m02 * B.c21 + A.m03 * B.c31,
   A.m10 * B.c00 + A.m11 * B.c10 + A.m12 * B.c20 + A.m13 * B.c30,
   A.m10 * B.c01 + A.m11 * B.c11 + A.m12 * B.c21 + A.m13 * B.c31,
   A.m20 * B.c00 + A.m21 * B.c10 + A.m22 * B.c20 + A.m23 * B.c30,
   A.m20 * B.c01 + A.m21 * B.c11 + A.m22 * B.c21 + A.m23 * B.c31,
   A.m30 * B.c00 + A.m31 * B.c10 + A.m32 * B.c20 + A.m33 * B.c30,
   A.m30 * B.c01 + A.m31 * B.c11 + A.m32 * B.c21 + A.m33 * B.c31⟩

/-- Product of a 4x2 and a 2x2 matrix. -/
def Mat42.mulM2 (A : Mat42) (B : Mat2) : Mat42 :=
  ⟨A.c00 * B.s00 + A.c01 * B.s10, A.c00 * B.s01 + A.c01 * B.s11,
   A.c10 * B.s00 + A.c11 * B.s10, A.c10 * B.s01 + A.c11 * B.s11,
   A.c20 * B.s00 + A.c21 * B.s10, A.c20 * B.s01 + A.c21 * B.s11,
   A.c30 * B.s00 + A.c31 * B.s10, A.c30 * B.s01 + A.c31 * B.s11⟩

/-- Product of a 4x2 matrix and a 2-vector. -/
def Mat42.mulVec (A : Mat42) (v : Vec2) : Vec4 :=
  ⟨A.c00 * v.z0 + A.c01 * v.z1,
   A.c10 * v.z0 + A.c11 * v.z1,
   A.c20 * v.z0 + A.c21 * v.z1,
   A.c30 * v.z0 + A.c31 * v.z1⟩

/-- Product of a 4x2 and a 2x4 matrix. -/
def Mat42.mulM24 (A : Mat42) (B : Mat24) : Mat4 :=
  ⟨A.c00 * B.b00 + A.c01 * B.b10, A.c00 * B.b01 + A.c01 * B.b11,
   A.c00 * B.b02 + A.c01 * B.b12, A.c00 * B.b03 + A.c01 * B.b13,
   A.c10 * B.b00 + A.c11 * B.b10, A.c10 * B.b01 + A.c11 * B.b11,
   A.c10 * B.b02 + A.c11 * B.b12, A.c10 * B.b03 + A.c11 * B.b13,
   A.c20 * B.b00 + A.c21 * B.b10, A.c20 * B.b01 + A.c21 * B.b11,
   A.c20 * B.b02 + A.c21 * B.b12, A.c20 * B.b03 + A.c21 * B.b13,
   A.c30 * B.b00 + A.c31 * B.b10, A.c30 * B.b01 + A.c31 * B.b11,
   A.c30 * B.b02 + A.c31 * B.b12, A.c30 * B.b03 + A.c31 * B.b13⟩

/-- Entrywise sum of 2x2 matrices. -/
def Mat2.add (A B : Mat2) : Mat2 :=
  ⟨A.s00 + B.s00, A.s01 + B.s01, A.s10 + B.s10, A.s11 + B.s11⟩

/-- Inverse of a 2x2 matrix (the innovation covariance is invertible in every
reachable state, where OpenCV's solver computes exactly this inverse). -/
def Mat2.inv (M : Mat2) : Mat2 :=
  let d := M.s00 * M.s11 - M.s01 * M.s10
  ⟨M.s11 / d, -M.s01 / d, -M.s10 / d, M.s00 / d⟩

/-- State of a `cv2.KalmanFilter` with 4-dimensional state and 2-dimensional
measurement. -/
structure KalmanFilter where
  statePre : Vec4
  statePost : Vec4
  errorCovPre : Mat4
  errorCovPost : Mat4
  measurementNoiseCov : Mat2
  deriving DecidableEq, Repr

/-- The constant-velocity transition matrix of `make_kalman` with `dt = 1`. -/
def transitionMatrix : Mat4 :=
  ⟨1, 0, 1, 0,
   0, 1, 0, 1,
   0, 0, 1, 0,
   0, 0, 0, 1⟩

/-- The measurement matrix of `make_kalman`: only the position is observed. -/
def measurementMatrix : Mat24 :=
  ⟨1, 0, 0, 0,
   0, 1, 0, 0⟩

/-- Process noise covariance `np.eye(4) * process_var` with the default
`process_var = 50.0`. -/
def processNoiseCov : Mat4 :=
  ⟨50, 0, 0, 0,
   0, 50, 0, 0,
   0, 0, 50, 0,
   0, 0, 0, 50⟩

/-- `make_kalman()` with all defaults: zero pre/post state, zero a-priori and
identity a-posteriori error covariance, measurement noise `np.eye(2) * 0.2`. -/
def make_kalman : KalmanFilter :=
  { statePre := Vec4.zero, statePost := Vec4.zero,
    errorCovPre := ⟨0, 0, 0, 0, 0, 0, 0, 0, 0, 0, 0, 0, 0, 0, 0, 0⟩,
    errorCovPost := ⟨1, 0, 0, 0, 0, 1, 0, 0, 0, 0, 1, 0, 0, 0, 0, 1⟩,
    measurementNoiseCov := ⟨2 / 10, 0, 0, 2 / 10⟩ }

/-- `cv2.KalmanFilter.predict()`: a-priori state from the transition model,
a-priori covariance from the propagated a-posteriori covariance plus process
noise, both also copied into the a-posteriori slots. -/
def predict (kf : KalmanFilter) : KalmanFilter :=
  let pre := transitionMatrix.mulVec kf.statePost
  let covPre := ((transitionMatrix.mul kf.errorCovPost).mul
    transitionMatrix.transpose).add processNoiseCov
  { kf with statePre := pre, statePost := pre,
            errorCovPre := covPre, errorCovPost := covPre }

/-- `cv2.KalmanFilter.correct(z)`: Kalman gain from the a-priori covariance
and the measurement noise, then the a-posteriori state and covariance. -/
def correct (kf : KalmanFilter) (z : Vec2) : KalmanFilter :=
  let HP := measurementMatrix.mulM4 kf.errorCovPre
  let S := (HP.mulM42 measurementMatrix.transpose).add kf.measurementNoiseCov
  let K := (kf.errorCovPre.mulM42 measurementMatrix.transpose).mulM2 S.inv
  { kf with
    statePost := kf.statePre.add
      (K.mulVec (z.sub (measurementMatrix.mulVec kf.statePre))),
    errorCovPost := kf.errorCovPre.sub (K.mulM24 HP) }

/-- The measurement vector built from the integer input point. -/
def measVec (x y : ℤ) : Vec2 := ⟨(x : ℚ), (y : ℚ)⟩

/-- The cold-start seeding of `KalmanSmoother.step`: when `statePost` is all
zero (`not np.any(...)`), write the measurement into the position components
of both the pre- and the post-state (`state[:2] = meas`), keeping the
velocity components. -/
def seedIfCold (kf : KalmanFilter) (meas : Vec2) : KalmanFilter :=
  if kf.statePost = Vec4.zero then
    { kf with
      statePre := { kf.statePre with x0 := meas.z0, x1 := meas.z1 },
      statePost := { kf.statePost with x0 := meas.z0, x1 := meas.z1 } }
  else kf

/-- Embedding of `KalmanSmoother.step`: build the measurement vector, seed on
a cold start, call `predict()`, call `correct(meas)`, and return the `int()`
truncation of the position components of what `predict()` returned (its
a-priori state). -/
def step (kf : KalmanFilter) (x y : ℤ) : KalmanFilter × (ℤ × ℤ) :=
  let meas := measVec x y
  let kf0 := seedIfCold kf meas
  let kfPred := predict kf0
  let kfCorr := correct kfPred meas
  (kfCorr, (pyInt kfPred.statePre.x0, pyInt kfPred.statePre.x1))

/-- The filter state reached after `step(100, 100)` from a fresh
`make_kalman()` (computed exactly; used to exercise the second step). -/
def kf1 : KalmanFilter :=
  { statePre := ⟨100, 100, 0, 0⟩,
    statePost := ⟨100, 100, 0, 0⟩,
    errorCovPre := ⟨52, 0, 1, 0, 0, 52, 0, 1, 1, 0, 51, 0, 0, 1, 0, 51⟩,
    errorCovPost := ⟨52/261, 0, 1/261, 0, 0, 52/261, 0, 1/261,
                     1/261, 0, 13306/261, 0, 0, 1/261, 0, 13306/261⟩,
    measurementNoiseCov := ⟨1/5, 0, 0, 1/5⟩ }

end Kalman

theorem pyInt_intCast (n : ℤ) : pyInt (n : ℚ) = n := by
  unfold pyInt
  split <;> simp

namespace Models

theorem decodeNumList_map_num (l : List ℚ) :
    decodeNumList (l.map PyObj.num) = some l := by
  induction l with
  | nil => rfl
  | cons x xs ih => simp [decodeNumList, ih]

theorem decodeRatList_encodeRatList (l : List ℚ) :
    decodeRatList (encodeRatList l) = some l := by
  simpa [decodeRatList, encodeRatList] using decodeNumList_map_num l

theorem decodeScaler_encodeScaler (sc : StandardScaler) :
    decodeScaler (encodeScaler sc) = some sc := by
  obtain ⟨fitted⟩ := sc
  cases fitted with
  | none => rfl
  | some ms =>
    simp [encodeScaler, decodeScaler, decodeRatList_encodeRatList]

theorem decodeVS_encodeVS (vs : Option (List ℚ)) :
    decodeVS (encodeVS vs) = some vs := by
  cases vs with
  | none => rfl
  | some v =>
    have h := decodeRatList_encodeRatList v
    simp only [encodeVS, encodeRatList] at h ⊢
    simp [decodeVS, h]

end Models

/-- Helper: Python `int()` of a nonnegative value caught between `n` and
`n + 1` is `n`. -/
theorem pyInt_eq_of_bounds (q : ℚ) (n : ℤ) (h0 : 0 ≤ q) (h1 : (n : ℚ) ≤ q)
    (h2 : q < (n : ℚ) + 1) : pyInt q = n := by
  unfold pyInt
  rw [if_pos h0]
  exact Int.floor_eq_iff.mpr ⟨h1, h2⟩

/-- Claim C9: for a 1024x600 screen with `margin_ratio = 0.10`, the nine-point
generation emits the points in the grid order
`[(1,1),(0,0),(0,1),(0,2),(1,0),(1,2),(2,0),(2,1),(2,2)]`; with the computed
margins `mx = 102`, `my_top = 60`, `my_bottom = 90`, the first (center) point
`(512, 285)` is exactly the horizontal and vertical midpoint between the
margins, and the corner points lie exactly on the margin boundaries `x ∈ {102,
1024 - 102}`, `y ∈ {60, 600 - 90}`. -/
theorem nine_point_grid_1024x600 :
    CalibApi.ninePointOrder =
      [(1, 1), (0, 0), (0, 1), (0, 2), (1, 0), (1, 2), (2, 0), (2, 1), (2, 2)] ∧
    (CalibApi.generatePoints 1024 600 (1 / 10)).map (fun p => (p.x, p.y)) =
      [(512, 285),
       (102, 60), (512, 60), (922, 60),
       (102, 285), (922, 285),
       (102, 510), (512, 510), (922, 510)] ∧
    (CalibApi.generatePoints 1024 600 (1 / 10)).map (fun p => (p.index, p.total)) =
      [(0, 9), (1, 9), (2, 9), (3, 9), (4, 9), (5, 9), (6, 9), (7, 9), (8, 9)] ∧
    pyInt ((1024 : ℚ) * (1 / 10)) = 102 ∧
    pyInt ((600 : ℚ) * (1 / 10)) = 60 ∧
    pyInt ((600 : ℚ) * (15 / 100)) = 90 ∧
    (512 : ℤ) = (102 + (1024 - 102)) / 2 ∧
    (285 : ℤ) = (60 + (600 - 90)) / 2 ∧
    (922 : ℤ) = 1024 - 102 ∧
    (510 : ℤ) = 600 - 90 := by
  have hpts : CalibApi.computeGridPoints 1024 600 (1 / 10)
      CalibApi.ninePointOrder =
      [(512, 285),
       (102, 60), (512, 60), (922, 60),
       (102, 285), (922, 285),
       (102, 510), (512, 510), (922, 510)] := by
    unfold CalibApi.computeGridPoints
    rw [if_neg (by simp [CalibApi.ninePointOrder])]
    norm_num [CalibApi.ninePointOrder, pyInt]
  refine ⟨rfl, ?_, ?_, by norm_num [pyInt], by norm_num [pyInt],
    by norm_num [pyInt], by norm_num, by norm_num, by norm_num,
    by norm_num⟩ <;>
    simp only [CalibApi.generatePoints, hpts] <;>
    norm_num [List.enum, List.enumFrom]

/-- Claim C7: `extract_features` (with the constructor defaults) declares a
blink exactly when the averaged two-eye EAR falls below the threshold, where
the threshold is `blink_threshold_ratio = 0.8` times the running mean of the
rolling EAR history once the history (after recording the current EAR) has at
least `min_history = 15` entries, and the fixed fallback `0.2` before that. -/
theorem blink_iff_below_threshold (hist : List ℚ) (l r : ℚ) :
    (GazeEst.blinkUpdate GazeEst.defaultBlinkConfig hist l r).1 =
      GazeEst.dequeAppend 50 hist ((l + r) / 2) ∧
    ((GazeEst.blinkUpdate GazeEst.defaultBlinkConfig hist l r).2 = true ↔
      (l + r) / 2 < GazeEst.blinkThresholdSpec
        (GazeEst.dequeAppend 50 hist ((l + r) / 2))) := by
  constructor
  · rfl
  · simp only [GazeEst.blinkUpdate, GazeEst.defaultBlinkConfig,
      GazeEst.blinkThresholdSpec, decide_eq_true_eq]
    split_ifs with h
    · rw [show listMean (GazeEst.dequeAppend 50 hist ((l + r) / 2)) * (4 / 5) =
        8 / 10 * listMean (GazeEst.dequeAppend 50 hist ((l + r) / 2)) from by
          ring]
    · exact Iff.rfl

/-- Claim C3: a 9-point calibration run aborted at any phase before training
(face-wait cancelled, or ESC during any pulse or capture window) returns with
the gaze estimator's model state exactly as it was, and in particular with no
`train()` call recorded; cancelling a web calibration session removes it from
the session registry (its terminal state) without touching any model. -/
theorem aborted_calibration_leaves_model_untouched (waitResult : Bool)
    (script : List ((ℤ × ℤ) × (List CalibScript.CamFrame ×
      List CalibScript.CamFrame))) (ge : CalibScript.GEState) :
    ((waitResult = false ∨ CalibScript.pulse_and_capture script = none) →
      CalibScript.run_9_point_calibration waitResult script ge = ge) ∧
    (∀ (sessions : List (String × CalibApi.Session)) (sid : String)
      (l : List (String × CalibApi.Session)),
      CalibApi.cancel_calibration sessions sid = .ok l →
      sid ∉ l.map Prod.fst) := by
  constructor
  · intro h
    unfold CalibScript.run_9_point_calibration
    rcases h with h | h
    · rw [if_pos (by simp [h])]
    · by_cases hw : waitResult = false
      · rw [if_pos hw]
      · rw [if_neg hw, h]
  · intro sessions sid l hok
    unfold CalibApi.cancel_calibration at hok
    split_ifs at hok with hc
    · cases hok
      intro hmem
      obtain ⟨p, hp, hps⟩ := List.mem_map.mp hmem
      have := (List.mem_filter.mp hp).2
      simp [hps] at this

/-- Witness for C3: cancelling during the capture of the first point (ESC on
the first capture frame) leaves a model with one previous training call
untouched, and cancelling a registered session removes it. -/
theorem aborted_calibration_leaves_model_untouched_witness :
    CalibScript.run_9_point_calibration true
      [((512, 285), ([], [⟨true, true, none, false⟩]))]
      ⟨[([[1]], [(0, 0)])]⟩ = ⟨[([[1]], [(0, 0)])]⟩ ∧
    "sid" ∉ (List.map Prod.fst
      ((CalibApi.cancel_calibration [("sid", ⟨[], [], .IDLE⟩)] "sid").toOption.getD [])) := by
  constructor
  · exact (aborted_calibration_leaves_model_untouched true _ _).1
      (Or.inr (by rfl))
  · exact (aborted_calibration_leaves_model_untouched true [] ⟨[]⟩).2
      [("sid", ⟨[], [], .IDLE⟩)] "sid" _ rfl

/-- Claim C4: calling `predict` on a model whose `train` has never been
called fails with sklearn's `NotFittedError` for every input `X` and every
concrete regression variant — it never returns coordinates. -/
theorem predict_before_train_fails {N : Type}
    (nativePredict : N → List (List ℚ) → List (ℚ × ℚ)) (native : N)
    (X : List (List ℚ)) :
    Models.BaseModel.predict nativePredict (Models.mkBaseModel native) X =
      .error "NotFittedError" := rfl

/-- Claim C6: loading the artifact produced by `save` yields a model whose
predictions agree with the saved model on every input (save followed by load
round-trips prediction behaviour), for every native estimator encoding that
round-trips. -/
theorem save_load_roundtrip {N : Type}
    (nativePredict : N → List (List ℚ) → List (ℚ × ℚ))
    (encN : N → Models.PyObj) (decN : Models.PyObj → Option N)
    (h : ∀ n, decN (encN n) = some n) (m : Models.BaseModel N) :
    ∃ m', Models.BaseModel.load decN (Models.BaseModel.save encN m) = some m' ∧
      ∀ X, Models.BaseModel.predict nativePredict m' X =
        Models.BaseModel.predict nativePredict m X := by
  refine ⟨m, ?_, fun X => rfl⟩
  simp [Models.BaseModel.save, Models.BaseModel.load,
    Models.decodeScaler_encodeScaler, Models.decodeVS_encodeVS, h]

/-- Witness for C6: a concrete trained ridge-style model (native state a list
of coefficients) survives the save/load round-trip. -/
theorem save_load_roundtrip_witness :
    ∃ m', Models.BaseModel.load Models.decodeRatList
        (Models.BaseModel.save Models.encodeRatList
          ⟨⟨some ([1, 2], [3, 4])⟩, some [5, 6], [7, 8]⟩) = some m' ∧
      ∀ X, Models.BaseModel.predict (fun _ _ => [(1, 2)]) m' X =
        Models.BaseModel.predict (fun _ _ => [(1, 2)])
          ⟨⟨some ([1, 2], [3, 4])⟩, some [5, 6], [7, 8]⟩ X :=
  save_load_roundtrip (fun _ _ => [(1, 2)]) Models.encodeRatList
    Models.decodeRatList Models.decodeRatList_encodeRatList
    ⟨⟨some ([1, 2], [3, 4])⟩, some [5, 6], [7, 8]⟩

/-- Helper: one `_process_frame` never touches the `calibrated` flag. -/
theorem processFrame_calibrated {σ : Type} (predict : List ℚ → ℤ × ℤ)
    (smooth : σ → ℤ × ℤ → σ × (ℤ × ℤ)) (screen : ℤ × ℤ)
    (st : Tracker.TrackerState × σ) (fr : Tracker.Frame) :
    (Tracker.processFrame predict smooth screen st fr).1.calibrated =
      st.1.calibrated := by
  obtain ⟨s0, sm⟩ := st
  rcases fr with ⟨now, features, blink⟩
  rcases features with _ | f <;> rcases blink <;> rcases hc : s0.calibrated <;>
    simp only [Tracker.processFrame, hc] <;>
    (split_ifs <;> simp [hc])

/-- Helper: after any processed frame the current-gaze slot is non-null, and
the raw-gaze slot is non-null provided it was non-null before or no gaze had
been set yet. -/
theorem processFrame_gaze_nonNull {σ : Type} (predict : List ℚ → ℤ × ℤ)
    (smooth : σ → ℤ × ℤ → σ × (ℤ × ℤ)) (screen : ℤ × ℤ)
    (st : Tracker.TrackerState × σ) (fr : Tracker.Frame) :
    (Tracker.processFrame predict smooth screen st fr).1.currentGaze ≠ none ∧
    (st.1.currentGaze = none ∨ st.1.rawGaze ≠ none →
      (Tracker.processFrame predict smooth screen st fr).1.rawGaze ≠ none) := by
  obtain ⟨s0, sm⟩ := st
  rcases fr with ⟨now, features, blink⟩
  rcases features with _ | f <;> rcases blink <;> rcases hc : s0.calibrated <;>
    simp only [Tracker.processFrame, hc] <;>
    (split_ifs with h <;> simp_all)

/-- Helper: a frame on which no calibrated prediction happens seeds the gaze
slots with the screen center when no gaze was ever set. -/
theorem processFrame_noPredict_seeds_center {σ : Type}
    (predict : List ℚ → ℤ × ℤ) (smooth : σ → ℤ × ℤ → σ × (ℤ × ℤ))
    (screen : ℤ × ℤ) (st : Tracker.TrackerState × σ) (fr : Tracker.Frame)
    (hnp : ¬ Tracker.predictingFrame st.1.calibrated fr)
    (h0 : st.1.currentGaze = none) :
    (Tracker.processFrame predict smooth screen st fr).1.currentGaze =
      some (Int.ediv screen.1 2, Int.ediv screen.2 2) ∧
    (Tracker.processFrame predict smooth screen st fr).1.rawGaze =
      some (Int.ediv screen.1 2, Int.ediv screen.2 2) := by
  obtain ⟨s0, sm⟩ := st
  rcases fr with ⟨now, features, blink⟩
  rcases features with _ | f <;> rcases blink <;> rcases hc : s0.calibrated <;>
    simp only [Tracker.predictingFrame, hc] at hnp <;>
    simp only [Tracker.processFrame, hc] <;>
    (split_ifs with h <;> simp_all)

/-- Helper: a frame on which no calibrated prediction happens leaves already
set gaze slots unchanged. -/
theorem processFrame_noPredict_keeps_gaze {σ : Type}
    (predict : List ℚ → ℤ × ℤ) (smooth : σ → ℤ × ℤ → σ × (ℤ × ℤ))
    (screen : ℤ × ℤ) (st : Tracker.TrackerState × σ) (fr : Tracker.Frame)
    (hnp : ¬ Tracker.predictingFrame st.1.calibrated fr)
    (h0 : st.1.currentGaze ≠ none) :
    (Tracker.processFrame predict smooth screen st fr).1.currentGaze =
      st.1.currentGaze ∧
    (Tracker.processFrame predict smooth screen st fr).1.rawGaze =
      st.1.rawGaze := by
  obtain ⟨s0, sm⟩ := st
  rcases fr with ⟨now, features, blink⟩
  rcases features with _ | f <;> rcases blink <;> rcases hc : s0.calibrated <;>
    simp only [Tracker.predictingFrame, hc] at hnp <;>
    simp only [Tracker.processFrame, hc] <;>
    (split_ifs with h <;> simp_all)

/-- Helper: folding `_process_frame` keeps both gaze slots non-null once they
are non-null. -/
theorem runFrames_gaze_nonNull_aux {σ : Type} (predict : List ℚ → ℤ × ℤ)
    (smooth : σ → ℤ × ℤ → σ × (ℤ × ℤ)) (screen : ℤ × ℤ)
    (frames : List Tracker.Frame) :
    ∀ st : Tracker.TrackerState × σ, st.1.currentGaze ≠ none →
      st.1.rawGaze ≠ none →
      (Tracker.runFrames predict smooth screen st frames).1.currentGaze ≠
        none ∧
      (Tracker.runFrames predict smooth screen st frames).1.rawGaze ≠
        none := by
  induction frames with
  | nil => exact fun st h1 h2 => ⟨h1, h2⟩
  | cons f fs ih =>
    intro st h1 h2
    have h := processFrame_gaze_nonNull predict smooth screen st f
    exact ih (Tracker.processFrame predict smooth screen st f) h.1
      (h.2 (Or.inr h2))

/-- Helper: folding `_process_frame` over frames on which no calibrated
prediction happens keeps both gaze slots at the screen center. -/
theorem runFrames_center_aux {σ : Type} (predict : List ℚ → ℤ × ℤ)
    (smooth : σ → ℤ × ℤ → σ × (ℤ × ℤ)) (screen : ℤ × ℤ)
    (frames : List Tracker.Frame) :
    ∀ st : Tracker.TrackerState × σ,
      (∀ f ∈ frames, ¬ Tracker.predictingFrame st.1.calibrated f) →
      st.1.currentGaze = some (Int.ediv screen.1 2, Int.ediv screen.2 2) →
      st.1.rawGaze = some (Int.ediv screen.1 2, Int.ediv screen.2 2) →
      (Tracker.runFrames predict smooth screen st frames).1.currentGaze =
        some (Int.ediv screen.1 2, Int.ediv screen.2 2) ∧
      (Tracker.runFrames predict smooth screen st frames).1.rawGaze =
        some (Int.ediv screen.1 2, Int.ediv screen.2 2) := by
  induction frames with
  | nil => exact fun st _ h1 h2 => ⟨h1, h2⟩
  | cons f fs ih =>
    intro st hnp h1 h2
    have hk := processFrame_noPredict_keeps_gaze predict smooth screen st f
      (hnp f (List.mem_cons_self f fs)) (by rw [h1]; exact Option.some_ne_none _)
    refine ih (Tracker.processFrame predict smooth screen st f) ?_
      (by rw [hk.1, h1]) (by rw [hk.2, h2])
    intro g hg
    rw [processFrame_calibrated]
    exact hnp g (List.mem_cons_of_mem f hg)

/-- Claim C10: once at least one frame has been processed,
`get_current_state` never reports a null gaze point; and when no calibrated
prediction has ever been made (uncalibrated model, no face, or blinking on
every frame), both the stabilized and the raw gaze are reported as the screen
center `(screen_width // 2, screen_height // 2)`. -/
theorem get_current_state_never_null {σ : Type} (predict : List ℚ → ℤ × ℤ)
    (smooth : σ → ℤ × ℤ → σ × (ℤ × ℤ)) (screen : ℤ × ℤ) (calibrated : Bool)
    (sm0 : σ) (f : Tracker.Frame) (fs : List Tracker.Frame) :
    (Tracker.getCurrentState (Tracker.runFrames predict smooth screen
        (Tracker.initState calibrated, sm0) (f :: fs)).1).gaze ≠ none ∧
    (Tracker.getCurrentState (Tracker.runFrames predict smooth screen
        (Tracker.initState calibrated, sm0) (f :: fs)).1).rawGaze ≠ none ∧
    ((∀ g ∈ f :: fs, ¬ Tracker.predictingFrame calibrated g) →
      (Tracker.getCurrentState (Tracker.runFrames predict smooth screen
          (Tracker.initState calibrated, sm0) (f :: fs)).1).gaze =
        some (Int.ediv screen.1 2, Int.ediv screen.2 2) ∧
      (Tracker.getCurrentState (Tracker.runFrames predict smooth screen
          (Tracker.initState calibrated, sm0) (f :: fs)).1).rawGaze =
        some (Int.ediv screen.1 2, Int.ediv screen.2 2)) := by
  have hrun : Tracker.runFrames predict smooth screen
      (Tracker.initState calibrated, sm0) (f :: fs) =
      Tracker.runFrames predict smooth screen
        (Tracker.processFrame predict smooth screen
          (Tracker.initState calibrated, sm0) f) fs := rfl
  have hfirst := processFrame_gaze_nonNull predict smooth screen
    (Tracker.initState calibrated, sm0) f
  have hnn := runFrames_gaze_nonNull_aux predict smooth screen fs
    (Tracker.processFrame predict smooth screen
      (Tracker.initState calibrated, sm0) f)
    hfirst.1 (hfirst.2 (Or.inl rfl))
  refine ⟨by simpa [Tracker.getCurrentState, hrun] using hnn.1,
    by simpa [Tracker.getCurrentState, hrun] using hnn.2, fun hnp => ?_⟩
  have hseed := processFrame_noPredict_seeds_center predict smooth screen
    (Tracker.initState calibrated, sm0) f
    (by simpa [Tracker.initState] using hnp f (List.mem_cons_self f fs)) rfl
  have hcen := runFrames_center_aux predict smooth screen fs
    (Tracker.processFrame predict smooth screen
      (Tracker.initState calibrated, sm0) f)
    (by
      intro g hg
      rw [processFrame_calibrated]
      simpa [Tracker.initState] using hnp g (List.mem_cons_of_mem f hg))
    hseed.1 hseed.2
  exact ⟨by simpa [Tracker.getCurrentState, hrun] using hcen.1,
    by simpa [Tracker.getCurrentState, hrun] using hcen.2⟩

/-- Witness for C10: one no-face frame on an uncalibrated tracker with a
1024x600 screen reports the center (512, 300) for both gaze slots. -/
theorem get_current_state_never_null_witness :
    (Tracker.getCurrentState (Tracker.runFrames (fun _ => (0, 0))
        (fun u xy => (u, xy)) (1024, 600) (Tracker.initState false, ())
        [⟨0, none, false⟩]).1).gaze = some (512, 300) ∧
    (Tracker.getCurrentState (Tracker.runFrames (fun _ => (0, 0))
        (fun u xy => (u, xy)) (1024, 600) (Tracker.initState false, ())
        [⟨0, none, false⟩]).1).rawGaze = some (512, 300) := by
  have h := (get_current_state_never_null (fun _ => (0, 0))
    (fun u xy => (u, xy)) (1024, 600) false () ⟨0, none, false⟩ []).2.2
    (by simp [Tracker.predictingFrame])
  simpa using h

/-- Helper: a blink frame with the start timestamp already set keeps the
timestamp and latches the prolonged flag exactly when it was latched already
or the elapsed duration reaches the threshold. -/
theorem processFrame_blink_continues {σ : Type} (predict : List ℚ → ℤ × ℤ)
    (smooth : σ → ℤ × ℤ → σ × (ℤ × ℤ)) (screen : ℤ × ℤ)
    (st : Tracker.TrackerState × σ) (fr : Tracker.Frame) (t : ℚ)
    (hb : fr.blink = true) (hs : st.1.blinkStartTime = some t) :
    (Tracker.processFrame predict smooth screen st fr).1.blinkStartTime =
      some t ∧
    (Tracker.processFrame predict smooth screen st fr).1.prolongedBlinkTriggered
      = (st.1.prolongedBlinkTriggered || decide (1 ≤ fr.now - t)) := by
  obtain ⟨s0, sm⟩ := st
  rcases fr with ⟨now, features, blink⟩
  simp only at hb hs
  subst hb
  rcases features with _ | f <;> rcases hc : s0.calibrated <;>
    rcases htr : s0.prolongedBlinkTriggered <;>
    simp only [Tracker.processFrame, Tracker.PROLONGED_BLINK_DURATION, hc,
      hs, htr] <;>
    (split_ifs with h <;> simp_all)

/-- Helper: a blink frame with no start timestamp records the frame time as
the start and leaves the prolonged flag cleared (the duration is zero). -/
theorem processFrame_blink_starts {σ : Type} (predict : List ℚ → ℤ × ℤ)
    (smooth : σ → ℤ × ℤ → σ × (ℤ × ℤ)) (screen : ℤ × ℤ)
    (st : Tracker.TrackerState × σ) (fr : Tracker.Frame)
    (hb : fr.blink = true) (hs : st.1.blinkStartTime = none) :
    (Tracker.processFrame predict smooth screen st fr).1.blinkStartTime =
      some fr.now ∧
    (Tracker.processFrame predict smooth screen st fr).1.prolongedBlinkTriggered
      = false := by
  obtain ⟨s0, sm⟩ := st
  rcases fr with ⟨now, features, blink⟩
  simp only at hb hs
  subst hb
  rcases features with _ | f <;> rcases hc : s0.calibrated <;>
    simp only [Tracker.processFrame, Tracker.PROLONGED_BLINK_DURATION, hc,
      hs] <;>
    (split_ifs with h <;> simp_all) <;> linarith

/-- Helper: a no-blink frame clears both the start timestamp and the
prolonged flag. -/
theorem processFrame_blink_ends {σ : Type} (predict : List ℚ → ℤ × ℤ)
    (smooth : σ → ℤ × ℤ → σ × (ℤ × ℤ)) (screen : ℤ × ℤ)
    (st : Tracker.TrackerState × σ) (fr : Tracker.Frame)
    (hb : fr.blink = false) :
    (Tracker.processFrame predict smooth screen st fr).1.blinkStartTime =
      none ∧
    (Tracker.processFrame predict smooth screen st fr).1.prolongedBlinkTriggered
      = false := by
  obtain ⟨s0, sm⟩ := st
  rcases fr with ⟨now, features, blink⟩
  simp only at hb
  subst hb
  rcases features with _ | f <;> rcases hc : s0.calibrated <;>
    simp only [Tracker.processFrame, hc] <;>
    (split_ifs with h <;> simp_all)

/-- Helper: over a run of blink frames with the start timestamp set to `t`,
the timestamp never changes and the prolonged flag ends up set exactly when
it was set before or some frame of the run reached the threshold. -/
theorem runFrames_blink_aux {σ : Type} (predict : List ℚ → ℤ × ℤ)
    (smooth : σ → ℤ × ℤ → σ × (ℤ × ℤ)) (screen : ℤ × ℤ)
    (l : List Tracker.Frame) :
    ∀ (st : Tracker.TrackerState × σ) (t : ℚ), (∀ f ∈ l, f.blink = true) →
      st.1.blinkStartTime = some t →
      (Tracker.runFrames predict smooth screen st l).1.blinkStartTime =
        some t ∧
      ((Tracker.runFrames predict smooth screen st l).1.prolongedBlinkTriggered
          = true ↔
        st.1.prolongedBlinkTriggered = true ∨ ∃ f ∈ l, 1 ≤ f.now - t) := by
  induction l with
  | nil => simp [Tracker.runFrames]
  | cons f fs ih =>
    intro st t hb hs
    have hstep := processFrame_blink_continues predict smooth screen st f t
      (hb f (List.mem_cons_self f fs)) hs
    have htail := ih (Tracker.processFrame predict smooth screen st f) t
      (fun g hg => hb g (List.mem_cons_of_mem f hg)) hstep.1
    have hrun : Tracker.runFrames predict smooth screen st (f :: fs) =
        Tracker.runFrames predict smooth screen
          (Tracker.processFrame predict smooth screen st f) fs := rfl
    rw [hrun]
    refine ⟨htail.1, ?_⟩
    rw [htail.2, hstep.2]
    simp only [Bool.or_eq_true, decide_eq_true_eq, List.mem_cons]
    constructor
    · rintro ((h | h) | ⟨g, hg, hgt⟩)
      · exact Or.inl h
      · exact Or.inr ⟨f, Or.inl rfl, h⟩
      · exact Or.inr ⟨g, Or.inr hg, hgt⟩
    · rintro (h | ⟨g, (rfl | hg), hgt⟩)
      · exact Or.inl (Or.inl h)
      · exact Or.inl (Or.inr hgt)
      · exact Or.inr ⟨g, hg, hgt⟩

/-- Claim C8: within one continuous blink episode (`f0 :: fs` all blink
frames, entered with a cleared start timestamp), after any nonempty prefix
the start timestamp is the first frame's time and the prolonged flag is set
exactly when some frame of the prefix has reached the 1.0s threshold — so
the flag turns on at the first threshold-reaching frame, turns on at most
once, and stays latched to the end of the episode; an episode all of whose
frames stay under 1.0s never sets it; and the first no-blink frame clears
both the timestamp and the flag. -/
theorem prolonged_blink_latched_once {σ : Type} (predict : List ℚ → ℤ × ℤ)
    (smooth : σ → ℤ × ℤ → σ × (ℤ × ℤ)) (screen : ℤ × ℤ)
    (st0 : Tracker.TrackerState × σ) (f0 : Tracker.Frame)
    (fs : List Tracker.Frame) (h0 : st0.1.blinkStartTime = none)
    (hb : ∀ f ∈ f0 :: fs, f.blink = true) :
    (∀ k : ℕ,
      (Tracker.runFrames predict smooth screen st0
          ((f0 :: fs).take (k + 1))).1.blinkStartTime = some f0.now ∧
      ((Tracker.runFrames predict smooth screen st0
          ((f0 :: fs).take (k + 1))).1.prolongedBlinkTriggered = true ↔
        ∃ f ∈ (f0 :: fs).take (k + 1), 1 ≤ f.now - f0.now)) ∧
    (∀ k : ℕ,
      (Tracker.runFrames predict smooth screen st0
          ((f0 :: fs).take (k + 1))).1.prolongedBlinkTriggered = true →
      (Tracker.runFrames predict smooth screen st0
          ((f0 :: fs).take (k + 2))).1.prolongedBlinkTriggered = true) ∧
    (∀ (st : Tracker.TrackerState × σ) (fr : Tracker.Frame),
      fr.blink = false →
      (Tracker.processFrame predict smooth screen st fr).1.blinkStartTime =
        none ∧
      (Tracker.processFrame predict smooth screen st
        fr).1.prolongedBlinkTriggered = false) := by
  have key : ∀ k : ℕ,
      (Tracker.runFrames predict smooth screen st0
          ((f0 :: fs).take (k + 1))).1.blinkStartTime = some f0.now ∧
      ((Tracker.runFrames predict smooth screen st0
          ((f0 :: fs).take (k + 1))).1.prolongedBlinkTriggered = true ↔
        ∃ f ∈ (f0 :: fs).take (k + 1), 1 ≤ f.now - f0.now) := by
    intro k
    rw [List.take_succ_cons]
    have hstart := processFrame_blink_starts predict smooth screen st0 f0
      (hb f0 (List.mem_cons_self f0 fs)) h0
    have haux := runFrames_blink_aux predict smooth screen (fs.take k)
      (Tracker.processFrame predict smooth screen st0 f0) f0.now
      (fun g hg => hb g (List.mem_cons_of_mem f0 (List.take_subset k fs hg)))
      hstart.1
    have hrun : Tracker.runFrames predict smooth screen st0
        (f0 :: fs.take k) =
        Tracker.runFrames predict smooth screen
          (Tracker.processFrame predict smooth screen st0 f0) (fs.take k) :=
      rfl
    rw [hrun]
    refine ⟨haux.1, ?_⟩
    rw [haux.2, hstart.2]
    simp only [List.mem_cons, Bool.false_eq_true, false_or]
    constructor
    · rintro ⟨g, hg, hgt⟩
      exact ⟨g, Or.inr hg, hgt⟩
    · rintro ⟨g, (rfl | hg), hgt⟩
      · simp at hgt
        linarith
      · exact ⟨g, hg, hgt⟩
  refine ⟨key, fun k hk => ?_, fun st fr hb' =>
    processFrame_blink_ends predict smooth screen st fr hb'⟩
  obtain ⟨g, hg, hgt⟩ := (key k).2.mp hk
  exact (key (k + 1)).2.mpr
    ⟨g, (List.take_prefix_take_left _ (by omega)).subset hg, hgt⟩

/-- Witness for C8: a two-frame blink episode whose second frame arrives 1.1s
after the first latches the prolonged flag. -/
theorem prolonged_blink_latched_once_witness :
    (Tracker.runFrames (fun _ => ((0 : ℤ), (0 : ℤ)))
        (fun u xy => (u, xy)) ((1024 : ℤ), (600 : ℤ))
        (Tracker.initState false, ())
        (List.take 2 [⟨0, none, true⟩, ⟨11 / 10, none, true⟩])
      ).1.prolongedBlinkTriggered = true :=
  ((prolonged_blink_latched_once (fun _ => ((0 : ℤ), (0 : ℤ)))
      (fun u xy => (u, xy)) ((1024 : ℤ), (600 : ℤ))
      (Tracker.initState false, ()) ⟨0, none, true⟩
      [⟨11 / 10, none, true⟩] rfl (by simp)).1 1).2.mpr
    ⟨⟨11 / 10, none, true⟩, by simp, by norm_num⟩

set_option maxHeartbeats 1000000 in
/-- Helper: the first `step(100, 100)` from a fresh `make_kalman()` seeds the
state, returns the measurement, and reaches exactly the state `kf1`. -/
theorem kalman_step1_eq :
    Kalman.step Kalman.make_kalman 100 100 = (Kalman.kf1, (100, 100)) := by
  norm_num [Kalman.step, Kalman.seedIfCold, Kalman.predict, Kalman.correct,
    Kalman.measVec, Kalman.make_kalman, Kalman.kf1, Kalman.Vec4.zero,
    Kalman.Vec4.add, Kalman.Vec2.sub, Kalman.Mat4.mulVec, Kalman.Mat4.mul,
    Kalman.Mat4.transpose, Kalman.Mat4.add, Kalman.Mat4.sub,
    Kalman.Mat24.mulM4, Kalman.Mat24.mulM42, Kalman.Mat24.mulVec,
    Kalman.Mat24.transpose, Kalman.Mat4.mulM42, Kalman.Mat42.mulM2,
    Kalman.Mat42.mulVec, Kalman.Mat42.mulM24, Kalman.Mat2.add,
    Kalman.Mat2.inv, Kalman.transitionMatrix, Kalman.measurementMatrix,
    Kalman.processNoiseCov, pyInt, Prod.ext_iff]

set_option maxHeartbeats 4000000 in
/-- Helper: the second `step(200, 200)` from the state `kf1` returns the
prediction `(100, 100)` while the corrected a-posteriori position estimate
is `26436100/132311 ≈ 199.8` on both axes. -/
theorem kalman_step2_facts :
    (Kalman.step Kalman.kf1 200 200).2 = (100, 100) ∧
    (Kalman.step Kalman.kf1 200 200).1.statePost.x0 = 26436100 / 132311 ∧
    (Kalman.step Kalman.kf1 200 200).1.statePost.x1 = 26436100 / 132311 := by
  norm_num [Kalman.step, Kalman.seedIfCold, Kalman.predict, Kalman.correct,
    Kalman.measVec, Kalman.kf1, Kalman.Vec4.zero,
    Kalman.Vec4.add, Kalman.Vec2.sub, Kalman.Mat4.mulVec, Kalman.Mat4.mul,
    Kalman.Mat4.transpose, Kalman.Mat4.add, Kalman.Mat4.sub,
    Kalman.Mat24.mulM4, Kalman.Mat24.mulM42, Kalman.Mat24.mulVec,
    Kalman.Mat24.transpose, Kalman.Mat4.mulM42, Kalman.Mat42.mulM2,
    Kalman.Mat42.mulVec, Kalman.Mat42.mulM24, Kalman.Mat2.add,
    Kalman.Mat2.inv, Kalman.transitionMatrix, Kalman.measurementMatrix,
    Kalman.processNoiseCov, pyInt, Prod.ext_iff]

/-- Counterexample to C1 as stated: on the second call the smoother returns
`(100, 100)` — the pre-correction prediction — while the post-correction
position estimate of the very state it just corrected truncates to
`(199, 199)`; the returned point is therefore not the corrected estimate. -/
theorem kalman_step_returns_uncorrected_counterexample :
    (Kalman.step (Kalman.step Kalman.make_kalman 100 100).1 200 200).2 =
      (100, 100) ∧
    (pyInt (Kalman.step (Kalman.step Kalman.make_kalman 100 100).1
        200 200).1.statePost.x0,
     pyInt (Kalman.step (Kalman.step Kalman.make_kalman 100 100).1
        200 200).1.statePost.x1) = (199, 199) ∧
    (Kalman.step (Kalman.step Kalman.make_kalman 100 100).1 200 200).2 ≠
      (pyInt (Kalman.step (Kalman.step Kalman.make_kalman 100 100).1
          200 200).1.statePost.x0,
       pyInt (Kalman.step (Kalman.step Kalman.make_kalman 100 100).1
          200 200).1.statePost.x1) := by
  have h1 : (Kalman.step Kalman.make_kalman 100 100).1 = Kalman.kf1 := by
    rw [kalman_step1_eq]
  rw [h1]
  obtain ⟨hret, hx0, hx1⟩ := kalman_step2_facts
  have hfloor : pyInt (26436100 / 132311 : ℚ) = 199 := by
    unfold pyInt
    rw [if_pos (by norm_num), Int.floor_eq_iff]
    norm_num
  rw [hret, hx0, hx1, hfloor]
  norm_num

/-- Claim C1 (amended): on a call with a non-zero post-state the smoother
predicts from the constant-velocity model, then corrects the internal state
with the new measurement, but the returned point is the truncated
pre-correction (predicted) position estimate, not the corrected one; on the
first call (all-zero post-state) both the pre- and post-state position
components are seeded with the measurement and the returned point is the
measurement itself. -/
theorem kalman_step_predicts_then_corrects (kf : Kalman.KalmanFilter)
    (x y : ℤ) :
    (kf.statePost ≠ Kalman.Vec4.zero →
      Kalman.step kf x y =
        (Kalman.correct (Kalman.predict kf) (Kalman.measVec x y),
         (pyInt (Kalman.predict kf).statePre.x0,
          pyInt (Kalman.predict kf).statePre.x1))) ∧
    (kf.statePost = Kalman.Vec4.zero →
      (Kalman.seedIfCold kf (Kalman.measVec x y)).statePre =
        ⟨(x : ℚ), (y : ℚ), kf.statePre.x2, kf.statePre.x3⟩ ∧
      (Kalman.seedIfCold kf (Kalman.measVec x y)).statePost =
        ⟨(x : ℚ), (y : ℚ), 0, 0⟩ ∧
      Kalman.step kf x y =
        (Kalman.correct
          (Kalman.predict (Kalman.seedIfCold kf (Kalman.measVec x y)))
          (Kalman.measVec x y), (x, y))) := by
  constructor
  · intro h
    have hseed : Kalman.seedIfCold kf (Kalman.measVec x y) = kf := by
      unfold Kalman.seedIfCold
      rw [if_neg h]
    show (Kalman.correct (Kalman.predict
        (Kalman.seedIfCold kf (Kalman.measVec x y))) (Kalman.measVec x y),
      (pyInt (Kalman.predict
          (Kalman.seedIfCold kf (Kalman.measVec x y))).statePre.x0,
       pyInt (Kalman.predict
          (Kalman.seedIfCold kf (Kalman.measVec x y))).statePre.x1)) = _
    rw [hseed]
  · intro h
    have hseed : Kalman.seedIfCold kf (Kalman.measVec x y) =
        { kf with
          statePre := ⟨(x : ℚ), (y : ℚ), kf.statePre.x2, kf.statePre.x3⟩,
          statePost := ⟨(x : ℚ), (y : ℚ), 0, 0⟩ } := by
      unfold Kalman.seedIfCold
      rw [if_pos h, h]
      rfl
    refine ⟨by rw [hseed], by rw [hseed], ?_⟩
    show (Kalman.correct (Kalman.predict
        (Kalman.seedIfCold kf (Kalman.measVec x y))) (Kalman.measVec x y),
      (pyInt (Kalman.predict
          (Kalman.seedIfCold kf (Kalman.measVec x y))).statePre.x0,
       pyInt (Kalman.predict
          (Kalman.seedIfCold kf (Kalman.measVec x y))).statePre.x1)) = _
    have hx : (Kalman.predict
        (Kalman.seedIfCold kf (Kalman.measVec x y))).statePre.x0 = (x : ℚ) := by
      rw [hseed]
      simp [Kalman.predict, Kalman.Mat4.mulVec, Kalman.transitionMatrix]
    have hy : (Kalman.predict
        (Kalman.seedIfCold kf (Kalman.measVec x y))).statePre.x1 = (y : ℚ) := by
      rw [hseed]
      simp [Kalman.predict, Kalman.Mat4.mulVec, Kalman.transitionMatrix]
    rw [hx, hy, pyInt_intCast, pyInt_intCast]

/-- Witness for C1: the second step from `kf1` (hot state) returns the
truncated predicted position `(100, 100)` while correcting the state, and a
first step from a fresh filter returns the measurement `(7, 9)` itself. -/
theorem kalman_step_predicts_then_corrects_witness :
    Kalman.step Kalman.kf1 200 200 =
      (Kalman.correct (Kalman.predict Kalman.kf1) (Kalman.measVec 200 200),
       (100, 100)) ∧
    (Kalman.step Kalman.make_kalman 7 9).2 = (7, 9) := by
  constructor
  · have h := (kalman_step_predicts_then_corrects Kalman.kf1 200 200).1
      (by norm_num [Kalman.kf1, Kalman.Vec4.zero])
    rw [h]
    norm_num [Kalman.predict, Kalman.kf1, Kalman.Mat4.mulVec,
      Kalman.transitionMatrix, pyInt, Prod.ext_iff]
  · have h := ((kalman_step_predicts_then_corrects Kalman.make_kalman 7 9).2
      rfl).2.2
    rw [h]
